import Mathlib

/-!
Shallow embedding of `pkg/operator/ceph/cluster/monitoring.go` from the Rook
repository: the monitoring-lifecycle supervisor (`configureCephMonitoring`,
`isMonitoringDisabled`, `startMonitoringCheck`).

Modelling choices:
- A Go channel `chan struct{}` is modelled by a numeric identity (`stopChanId`)
  allocated from a per-cluster counter (`nextChanId`, standing in for the
  freshness of `make`), together with a `stopChanClosed` flag recording whether
  `close` has been called on it.  Closing an already-closed channel panics in
  Go; the embedding returns `Except.error (GoPanic.closeOfClosedChannel _)`
  in that case, aborting the pass exactly as a panic aborts the Go call.
- Launching a goroutine (`go healthChecker.Check(ch)` etc.), closing a channel
  and the log statements are recorded as `Event`s in the order the source
  performs them.  Constructing the daemon-specific checker objects
  (`mon.NewHealthChecker`, `osd.NewOSDHealthMonitor`, `newCephStatusChecker`)
  has no effect observable by this file and is absorbed into the launch event.
- The Go map `cluster.monitoringChannels : map[string]*clusterHealth` is an
  association list with Go map lookup/store semantics; the stored value is a
  pointer, so the source's in-place field mutations are modelled by storing an
  updated record at the same key.
- `clientController.StartWatch` and `bucketController.Run` (the auxiliary
  watchers) are external collaborators, recorded as events.
-/

namespace Rook

/-- The part of `cephv1.ClusterSpec` that this file reads: the
`HealthCheck.DaemonHealth.{Monitor, ObjectStorageDaemon, Status}.Disabled`
booleans. -/
structure ClusterSpec where
  monitorDisabled : Bool
  objectStorageDaemonDisabled : Bool
  statusDisabled : Bool
deriving DecidableEq

/-- The `clusterHealth` record: `stopChan` (modelled as channel identity plus
closed flag) and `monitoringRunning`. -/
structure ClusterHealth where
  stopChanId : Nat
  stopChanClosed : Bool
  monitoringRunning : Bool
deriving DecidableEq

/-- The fields of the `cluster` struct that `configureCephMonitoring` touches:
`monitoringChannels` and `watchersActivated`, plus the channel-identity
allocator `nextChanId` modelling the freshness of `make(chan ...)`. -/
structure Cluster where
  monitoringChannels : List (String × ClusterHealth)
  watchersActivated : Bool
  nextChanId : Nat
deriving DecidableEq

/-- Observable side effects of the supervisor, in program order. -/
inductive Event where
  | launch (daemon : String) (chanId : Nat)
  | closeChan (daemon : String) (chanId : Nat)
  | logDebug (daemon : String)
  | logInfo (daemon : String)
  | logDebugWatchers
  | startClientWatcher
  | startBucketWatcher
deriving DecidableEq

/-- Go runtime panics that this code can raise. -/
inductive GoPanic where
  | closeOfClosedChannel (daemon : String)
  | nilMapEntry (daemon : String)
deriving DecidableEq

/-- Go map lookup `m[k]` (comma-ok form) on the association list. -/
def lookupHealth : List (String × ClusterHealth) → String → Option ClusterHealth
  | [], _ => none
  | (k, v) :: rest, d => if k = d then some v else lookupHealth rest d

/-- Go map store `m[k] = v` on the association list. -/
def setHealth : List (String × ClusterHealth) → String → ClusterHealth →
    List (String × ClusterHealth)
  | [], d, h => [(d, h)]
  | (k, v) :: rest, d, h =>
    if k = d then (d, h) :: rest else (k, v) :: setHealth rest d h

/-- `isMonitoringDisabled` from the source: switch on the daemon name, with no
default case matching, so any unknown identifier falls through to `false`. -/
def isMonitoringDisabled (daemon : String) (clusterSpec : ClusterSpec) : Bool :=
  if daemon = "mon" then clusterSpec.monitorDisabled
  else if daemon = "osd" then clusterSpec.objectStorageDaemonDisabled
  else if daemon = "status" then clusterSpec.statusDisabled
  else false

/-- The fixed daemon enumeration `daemons := []string{"mon", "osd", "status"}`. -/
def daemons : List String := ["mon", "osd", "status"]

/-- `startMonitoringCheck` from the source: a switch over the three known
daemon names.  Each known branch logs, then starts the daemon's checker
goroutine with `cluster.monitoringChannels[daemon].stopChan`; if the map had no
entry for the daemon that dereference would be a nil-pointer panic (the branch
is unreachable from `configureCephMonitoring`, which only calls this with the
record present).  An unknown daemon matches no case and the call does
nothing. -/
def startMonitoringCheck (c : Cluster) (daemon : String) :
    Except GoPanic (Cluster × List Event) :=
  if daemon = "mon" then
    match lookupHealth c.monitoringChannels "mon" with
    | some health =>
      Except.ok (c, [Event.logInfo "mon", Event.launch "mon" health.stopChanId])
    | none => Except.error (GoPanic.nilMapEntry "mon")
  else if daemon = "osd" then
    match lookupHealth c.monitoringChannels "osd" with
    | some health =>
      Except.ok (c, [Event.logInfo "osd", Event.launch "osd" health.stopChanId])
    | none => Except.error (GoPanic.nilMapEntry "osd")
  else if daemon = "status" then
    match lookupHealth c.monitoringChannels "status" with
    | some health =>
      Except.ok (c,
        [Event.logInfo "status", Event.launch "status" health.stopChanId])
    | none => Except.error (GoPanic.nilMapEntry "status")
  else
    Except.ok (c, [])

/-- The body of the `for _, daemon := range daemons` loop of
`configureCephMonitoring`, for one daemon. -/
def reconcileDaemon (c : Cluster) (spec : ClusterSpec) (daemon : String) :
    Except GoPanic (Cluster × List Event) :=
  let isDisabled := isMonitoringDisabled daemon spec
  match lookupHealth c.monitoringChannels daemon with
  | some health =>
    if health.monitoringRunning then
      if isDisabled then
        -- close(cluster.monitoringChannels[daemon].stopChan); Go panics if the
        -- channel is already closed
        if health.stopChanClosed then
          Except.error (GoPanic.closeOfClosedChannel daemon)
        else
          Except.ok
            ({ c with
               monitoringChannels :=
                 setHealth c.monitoringChannels daemon
                   { health with stopChanClosed := true, monitoringRunning := false } },
             [Event.closeChan daemon health.stopChanId])
      else
        Except.ok (c, [Event.logDebug daemon])
    else
      if !isDisabled then
        -- c.startMonitoringCheck(...), then set monitoringRunning = true.
        -- Note: the existing record (and its stop channel) is reused as-is.
        match startMonitoringCheck c daemon with
        | Except.error p => Except.error p
        | Except.ok (c1, ev) =>
          Except.ok
            ({ c1 with
               monitoringChannels :=
                 setHealth c1.monitoringChannels daemon
                   { health with monitoringRunning := true } },
             ev)
      else
        Except.ok (c, [])
  | none =>
    if !isDisabled then
      -- create the record with a fresh stop channel, then launch
      let c1 : Cluster :=
        { c with
          monitoringChannels :=
            setHealth c.monitoringChannels daemon
              { stopChanId := c.nextChanId, stopChanClosed := false,
                monitoringRunning := true },
          nextChanId := c.nextChanId + 1 }
      startMonitoringCheck c1 daemon
    else
      Except.ok (c, [])

/-- The daemon loop of `configureCephMonitoring`, over a list of daemons. -/
def reconcileDaemons (spec : ClusterSpec) :
    Cluster → List String → Except GoPanic (Cluster × List Event)
  | c, [] => Except.ok (c, [])
  | c, d :: rest =>
    match reconcileDaemon c spec d with
    | Except.error p => Except.error p
    | Except.ok (c1, ev1) =>
      match reconcileDaemons spec c1 rest with
      | Except.error p => Except.error p
      | Except.ok (c2, ev2) => Except.ok (c2, ev1 ++ ev2)

/-- The watcher section at the end of `configureCephMonitoring`: early return
when `watchersActivated` is already true, otherwise start the client CRD
watcher and the bucket provisioner and latch the gate. -/
def startWatchers (c : Cluster) : Cluster × List Event :=
  if c.watchersActivated = true then
    (c, [Event.logDebugWatchers])
  else
    ({ c with watchersActivated := true },
     [Event.startClientWatcher, Event.startBucketWatcher])

/-- `configureCephMonitoring`: the daemon loop followed by the watcher
section.  A Go panic inside the loop aborts the whole call. -/
def configureCephMonitoring (c : Cluster) (spec : ClusterSpec) :
    Except GoPanic (Cluster × List Event) :=
  match reconcileDaemons spec c daemons with
  | Except.error p => Except.error p
  | Except.ok (c1, ev1) =>
    match startWatchers c1 with
    | (c2, ev2) => Except.ok (c2, ev1 ++ ev2)

/-- A sequence of reconciliation passes over a sequence of desired-state
snapshots, accumulating the event trace. -/
def runPasses : Cluster → List ClusterSpec → Except GoPanic (Cluster × List Event)
  | c, [] => Except.ok (c, [])
  | c, s :: rest =>
    match configureCephMonitoring c s with
    | Except.error p => Except.error p
    | Except.ok (c1, ev1) =>
      match runPasses c1 rest with
      | Except.error p => Except.error p
      | Except.ok (c2, ev2) => Except.ok (c2, ev1 ++ ev2)

/-- A freshly created supervised cluster: empty monitoring registry and the Go
zero value `false` for `watchersActivated` (the `cluster` struct is built
outside this file with neither field set). -/
def initialCluster : Cluster :=
  { monitoringChannels := [], watchersActivated := false, nextChanId := 0 }

/-- Number of occurrences of an event in a trace. -/
def countEvent (e : Event) : List Event → Nat
  | [] => 0
  | x :: rest => (if x = e then 1 else 0) + countEvent e rest

/-- Events that are side effects (task launches, cancellation signals, watcher
starts), as opposed to log output. -/
def isSideEffect : Event → Bool
  | Event.launch _ _ => true
  | Event.closeChan _ _ => true
  | Event.startClientWatcher => true
  | Event.startBucketWatcher => true
  | _ => false

/-- One step of the launch/close alternation automaton for daemon `d`.  The
state is the signal (channel identity) of the currently active task of kind
`d`, if any; the automaton rejects (`none`) if a launch happens while a task is
already active, or a close happens with no active task, or a close fires a
signal other than the active task's. -/
def stepAlt (d : String) (cur : Option Nat) : Event → Option (Option Nat)
  | Event.launch d1 cid =>
    if d1 = d then
      match cur with
      | none => some (some cid)
      | some _ => none
    else some cur
  | Event.closeChan d1 cid =>
    if d1 = d then
      match cur with
      | some c0 => if c0 = cid then some none else none
      | none => none
    else some cur
  | _ => some cur

/-- Run the launch/close alternation automaton for daemon `d` over a trace. -/
def runAlt (d : String) (cur : Option Nat) : List Event → Option (Option Nat)
  | [] => some cur
  | e :: rest =>
    match stepAlt d cur e with
    | some cur1 => runAlt d cur1 rest
    | none => none

/-- The signal of the currently active task of kind `d` according to the
registry: the record's channel when the record exists and `monitoringRunning`
is set. -/
def activeSignal (c : Cluster) (d : String) : Option Nat :=
  match lookupHealth c.monitoringChannels d with
  | some h => if h.monitoringRunning then some h.stopChanId else none
  | none => none

/-- A registry entry agrees with the desired-state flag `dis`: when disabled,
any record present is not running; when enabled, a running record is
present. -/
def settledAt (o : Option ClusterHealth) (dis : Bool) : Prop :=
  (dis = true → ∀ hh, o = some hh → hh.monitoringRunning = false) ∧
  (dis = false → ∃ hh, o = some hh ∧ hh.monitoringRunning = true)

/-- The daemon an event belongs to (`none` for the watcher-section events). -/
def eventDaemon : Event → Option String
  | Event.launch d _ => some d
  | Event.closeChan d _ => some d
  | Event.logDebug d => some d
  | Event.logInfo d => some d
  | _ => none

/-! ### Association-list (Go map) lemmas -/

theorem lookup_setHealth_self (m : List (String × ClusterHealth)) (d : String)
    (h : ClusterHealth) : lookupHealth (setHealth m d h) d = some h := by
  induction m with
  | nil => simp [setHealth, lookupHealth]
  | cons kv rest ih =>
    obtain ⟨k, v⟩ := kv
    by_cases hk : k = d
    · simp [setHealth, hk, lookupHealth]
    · simp [setHealth, hk, lookupHealth, ih]

theorem lookup_setHealth_ne (m : List (String × ClusterHealth)) (d d' : String)
    (h : ClusterHealth) (hne : d' ≠ d) :
    lookupHealth (setHealth m d h) d' = lookupHealth m d' := by
  have hne' : ¬d = d' := fun he => hne he.symm
  induction m with
  | nil => simp [setHealth, lookupHealth, hne']
  | cons kv rest ih =>
    obtain ⟨k, v⟩ := kv
    by_cases hk : k = d
    · subst hk
      simp [setHealth, lookupHealth, hne']
    · simp [setHealth, hk, lookupHealth, ih]

/-! ### One-daemon step characterization -/

/-- Exhaustive description of what one iteration of the daemon loop does, as a
relation between the pre-state and the result; the constructors are the cells
of the three-state transition table (with the Running∧disabled cell split by
whether the stop channel is still open — closing an already-closed channel
panics). -/
inductive Step (c : Cluster) (s : ClusterSpec) (d : String) :
    Except GoPanic (Cluster × List Event) → Prop where
  | absentDisabled :
      lookupHealth c.monitoringChannels d = none →
      isMonitoringDisabled d s = true →
      Step c s d (Except.ok (c, []))
  | absentEnabled :
      lookupHealth c.monitoringChannels d = none →
      isMonitoringDisabled d s = false →
      Step c s d (Except.ok
        ({ c with
           monitoringChannels :=
             setHealth c.monitoringChannels d
               { stopChanId := c.nextChanId, stopChanClosed := false,
                 monitoringRunning := true },
           nextChanId := c.nextChanId + 1 },
         [Event.logInfo d, Event.launch d c.nextChanId]))
  | runningEnabled (h : ClusterHealth) :
      lookupHealth c.monitoringChannels d = some h →
      h.monitoringRunning = true →
      isMonitoringDisabled d s = false →
      Step c s d (Except.ok (c, [Event.logDebug d]))
  | runningDisabledOpen (h : ClusterHealth) :
      lookupHealth c.monitoringChannels d = some h →
      h.monitoringRunning = true →
      isMonitoringDisabled d s = true →
      h.stopChanClosed = false →
      Step c s d (Except.ok
        ({ c with
           monitoringChannels :=
             setHealth c.monitoringChannels d
               { h with stopChanClosed := true, monitoringRunning := false } },
         [Event.closeChan d h.stopChanId]))
  | runningDisabledClosed (h : ClusterHealth) :
      lookupHealth c.monitoringChannels d = some h →
      h.monitoringRunning = true →
      isMonitoringDisabled d s = true →
      h.stopChanClosed = true →
      Step c s d (Except.error (GoPanic.closeOfClosedChannel d))
  | stoppedEnabled (h : ClusterHealth) :
      lookupHealth c.monitoringChannels d = some h →
      h.monitoringRunning = false →
      isMonitoringDisabled d s = false →
      Step c s d (Except.ok
        ({ c with
           monitoringChannels :=
             setHealth c.monitoringChannels d
               { h with monitoringRunning := true } },
         [Event.logInfo d, Event.launch d h.stopChanId]))
  | stoppedDisabled (h : ClusterHealth) :
      lookupHealth c.monitoringChannels d = some h →
      h.monitoringRunning = false →
      isMonitoringDisabled d s = true →
      Step c s d (Except.ok (c, []))

theorem startMonitoringCheck_known (c : Cluster) (d : String)
    (hd : d = "mon" ∨ d = "osd" ∨ d = "status") :
    startMonitoringCheck c d =
      match lookupHealth c.monitoringChannels d with
      | some h => Except.ok (c, [Event.logInfo d, Event.launch d h.stopChanId])
      | none => Except.error (GoPanic.nilMapEntry d) := by
  rcases hd with rfl | rfl | rfl <;> rfl

theorem rd_step (c : Cluster) (s : ClusterSpec) (d : String)
    (hd : d = "mon" ∨ d = "osd" ∨ d = "status") :
    Step c s d (reconcileDaemon c s d) := by
  cases hL : lookupHealth c.monitoringChannels d with
  | none =>
    cases hdis : isMonitoringDisabled d s with
    | true =>
      have e : reconcileDaemon c s d = Except.ok (c, []) := by
        simp [reconcileDaemon, hL, hdis]
      rw [e]
      exact Step.absentDisabled hL hdis
    | false =>
      have e : reconcileDaemon c s d = Except.ok
          ({ c with
             monitoringChannels :=
               setHealth c.monitoringChannels d
                 { stopChanId := c.nextChanId, stopChanClosed := false,
                   monitoringRunning := true },
             nextChanId := c.nextChanId + 1 },
           [Event.logInfo d, Event.launch d c.nextChanId]) := by
        simp [reconcileDaemon, hL, hdis, startMonitoringCheck_known _ _ hd,
          lookup_setHealth_self]
      rw [e]
      exact Step.absentEnabled hL hdis
  | some h =>
    cases hr : h.monitoringRunning with
    | true =>
      cases hdis : isMonitoringDisabled d s with
      | true =>
        cases hcl : h.stopChanClosed with
        | true =>
          have e : reconcileDaemon c s d =
              Except.error (GoPanic.closeOfClosedChannel d) := by
            simp [reconcileDaemon, hL, hdis, hr, hcl]
          rw [e]
          exact Step.runningDisabledClosed h hL hr hdis hcl
        | false =>
          have e : reconcileDaemon c s d = Except.ok
              ({ c with
                 monitoringChannels :=
                   setHealth c.monitoringChannels d
                     { h with stopChanClosed := true, monitoringRunning := false } },
               [Event.closeChan d h.stopChanId]) := by
            simp [reconcileDaemon, hL, hdis, hr, hcl]
          rw [e]
          exact Step.runningDisabledOpen h hL hr hdis hcl
      | false =>
        have e : reconcileDaemon c s d = Except.ok (c, [Event.logDebug d]) := by
          simp [reconcileDaemon, hL, hdis, hr]
        rw [e]
        exact Step.runningEnabled h hL hr hdis
    | false =>
      cases hdis : isMonitoringDisabled d s with
      | true =>
        have e : reconcileDaemon c s d = Except.ok (c, []) := by
          simp [reconcileDaemon, hL, hdis, hr]
        rw [e]
        exact Step.stoppedDisabled h hL hr hdis
      | false =>
        have e : reconcileDaemon c s d = Except.ok
            ({ c with
               monitoringChannels :=
                 setHealth c.monitoringChannels d
                   { h with monitoringRunning := true } },
             [Event.logInfo d, Event.launch d h.stopChanId]) := by
          simp [reconcileDaemon, hL, hdis, hr, startMonitoringCheck_known _ _ hd]
        rw [e]
        exact Step.stoppedEnabled h hL hr hdis

/-- Facts shared by every non-panicking daemon-loop iteration: the watcher
gate and the channel allocator only grow, registry keys other than the
daemon's own are untouched, and every emitted event belongs to that daemon. -/
theorem step_ok_facts (c c1 : Cluster) (s : ClusterSpec) (d : String)
    (ev : List Event) (hstep : Step c s d (Except.ok (c1, ev))) :
    c1.watchersActivated = c.watchersActivated ∧
    (∀ d', d' ≠ d → lookupHealth c1.monitoringChannels d' =
      lookupHealth c.monitoringChannels d') ∧
    (∀ e ∈ ev, eventDaemon e = some d) := by
  cases hstep with
  | absentDisabled hL hdis =>
    exact ⟨rfl, fun d' _ => rfl, by simp⟩
  | absentEnabled hL hdis =>
    refine ⟨rfl, fun d' hne => ?_, by simp [eventDaemon]⟩
    exact lookup_setHealth_ne _ _ _ _ hne
  | runningEnabled h hL hr hdis =>
    exact ⟨rfl, fun d' _ => rfl, by simp [eventDaemon]⟩
  | runningDisabledOpen h hL hr hdis hcl =>
    refine ⟨rfl, fun d' hne => ?_, by simp [eventDaemon]⟩
    exact lookup_setHealth_ne _ _ _ _ hne
  | stoppedEnabled h hL hr hdis =>
    refine ⟨rfl, fun d' hne => ?_, by simp [eventDaemon]⟩
    exact lookup_setHealth_ne _ _ _ _ hne
  | stoppedDisabled h hL hr hdis =>
    exact ⟨rfl, fun d' _ => rfl, by simp⟩

/-- The watcher section never changes the registry or the allocator, always
leaves the gate set, and emits only watcher-section events. -/
theorem startWatchers_facts (c : Cluster) :
    (startWatchers c).1.monitoringChannels = c.monitoringChannels ∧
    (startWatchers c).1.watchersActivated = true ∧
    (startWatchers c).1.nextChanId = c.nextChanId ∧
    (∀ e ∈ (startWatchers c).2, eventDaemon e = none) := by
  cases hw : c.watchersActivated with
  | true => simp [startWatchers, hw, eventDaemon]
  | false => simp [startWatchers, hw, eventDaemon]

theorem startWatchers_of_true (c : Cluster) (hw : c.watchersActivated = true) :
    startWatchers c = (c, [Event.logDebugWatchers]) := by
  simp [startWatchers, hw]

theorem startWatchers_of_false (c : Cluster) (hw : c.watchersActivated = false) :
    startWatchers c =
      ({ c with watchersActivated := true },
       [Event.startClientWatcher, Event.startBucketWatcher]) := by
  simp [startWatchers, hw]

/-! ### Destructuring the loop, the pass and pass sequences -/

theorem reconcileDaemons_cons_ok (s : ClusterSpec) (c c2 : Cluster)
    (d : String) (L : List String) (ev : List Event)
    (hrun : reconcileDaemons s c (d :: L) = Except.ok (c2, ev)) :
    ∃ c1 ev1 ev2, reconcileDaemon c s d = Except.ok (c1, ev1) ∧
      reconcileDaemons s c1 L = Except.ok (c2, ev2) ∧ ev = ev1 ++ ev2 := by
  simp only [reconcileDaemons] at hrun
  cases h1 : reconcileDaemon c s d with
  | error p => rw [h1] at hrun; simp at hrun
  | ok pr =>
    obtain ⟨c1, ev1⟩ := pr
    rw [h1] at hrun
    dsimp only at hrun
    cases h2 : reconcileDaemons s c1 L with
    | error p => rw [h2] at hrun; simp at hrun
    | ok pr2 =>
      obtain ⟨cmid, ev2⟩ := pr2
      rw [h2] at hrun
      dsimp only at hrun
      simp only [Except.ok.injEq, Prod.mk.injEq] at hrun
      obtain ⟨hc, hev⟩ := hrun
      subst hc
      exact ⟨c1, ev1, ev2, rfl, h2, hev.symm⟩

theorem configure_ok (c : Cluster) (s : ClusterSpec) (c2 : Cluster)
    (ev : List Event)
    (h : configureCephMonitoring c s = Except.ok (c2, ev)) :
    ∃ c1 ev1, reconcileDaemons s c daemons = Except.ok (c1, ev1) ∧
      c2 = (startWatchers c1).1 ∧ ev = ev1 ++ (startWatchers c1).2 := by
  simp only [configureCephMonitoring] at h
  cases h1 : reconcileDaemons s c daemons with
  | error p => rw [h1] at h; simp at h
  | ok pr =>
    obtain ⟨c1, ev1⟩ := pr
    rw [h1] at h
    dsimp only at h
    simp only [Except.ok.injEq, Prod.mk.injEq] at h
    obtain ⟨hc, hev⟩ := h
    exact ⟨c1, ev1, rfl, hc.symm, hev.symm⟩

theorem runPasses_cons_ok (c c2 : Cluster) (s : ClusterSpec)
    (specs : List ClusterSpec) (ev : List Event)
    (hrun : runPasses c (s :: specs) = Except.ok (c2, ev)) :
    ∃ c1 ev1 ev2, configureCephMonitoring c s = Except.ok (c1, ev1) ∧
      runPasses c1 specs = Except.ok (c2, ev2) ∧ ev = ev1 ++ ev2 := by
  simp only [runPasses] at hrun
  cases h1 : configureCephMonitoring c s with
  | error p => rw [h1] at hrun; simp at hrun
  | ok pr =>
    obtain ⟨c1, ev1⟩ := pr
    rw [h1] at hrun
    dsimp only at hrun
    cases h2 : runPasses c1 specs with
    | error p => rw [h2] at hrun; simp at hrun
    | ok pr2 =>
      obtain ⟨cmid, ev2⟩ := pr2
      rw [h2] at hrun
      dsimp only at hrun
      simp only [Except.ok.injEq, Prod.mk.injEq] at hrun
      obtain ⟨hc, hev⟩ := hrun
      subst hc
      exact ⟨c1, ev1, ev2, rfl, h2, hev.symm⟩

/-- Generic induction principle over a successful daemon loop: any pre/post
trace relation that holds for `[]`, composes over `++`, and holds for every
single non-panicking iteration, holds for the loop. -/
theorem reconcileDaemons_ind (s : ClusterSpec)
    (R : Cluster → List Event → Cluster → Prop)
    (hnil : ∀ c, R c [] c)
    (hcomp : ∀ c ev1 c1 ev2 c2, R c ev1 c1 → R c1 ev2 c2 → R c (ev1 ++ ev2) c2)
    (hstep : ∀ c d c1 ev, (d = "mon" ∨ d = "osd" ∨ d = "status") →
      reconcileDaemon c s d = Except.ok (c1, ev) → R c ev c1) :
    ∀ L, (∀ d ∈ L, d = "mon" ∨ d = "osd" ∨ d = "status") →
      ∀ c c2 ev, reconcileDaemons s c L = Except.ok (c2, ev) → R c ev c2 := by
  intro L
  induction L with
  | nil =>
    intro _ c c2 ev hrun
    simp only [reconcileDaemons, Except.ok.injEq, Prod.mk.injEq] at hrun
    obtain ⟨hc, hev⟩ := hrun
    subst hc; subst hev
    exact hnil c
  | cons d rest ih =>
    intro hL c c2 ev hrun
    obtain ⟨c1, ev1, ev2, h1, h2, hev⟩ := reconcileDaemons_cons_ok s c c2 d rest ev hrun
    subst hev
    exact hcomp c ev1 c1 ev2 c2
      (hstep c d c1 ev1 (hL d (List.mem_cons_self d rest)) h1)
      (ih (fun d' hd' => hL d' (List.mem_cons_of_mem d hd')) c1 c2 ev2 h2)

/-- Generic induction principle over a successful sequence of passes. -/
theorem runPasses_ind (R : Cluster → List Event → Cluster → Prop)
    (hnil : ∀ c, R c [] c)
    (hcomp : ∀ c ev1 c1 ev2 c2, R c ev1 c1 → R c1 ev2 c2 → R c (ev1 ++ ev2) c2)
    (hstep : ∀ c s c1 ev, configureCephMonitoring c s = Except.ok (c1, ev) →
      R c ev c1) :
    ∀ specs c c2 ev, runPasses c specs = Except.ok (c2, ev) → R c ev c2 := by
  intro specs
  induction specs with
  | nil =>
    intro c c2 ev hrun
    simp only [runPasses, Except.ok.injEq, Prod.mk.injEq] at hrun
    obtain ⟨hc, hev⟩ := hrun
    subst hc; subst hev
    exact hnil c
  | cons sp rest ih =>
    intro c c2 ev hrun
    obtain ⟨c1, ev1, ev2, h1, h2, hev⟩ := runPasses_cons_ok c c2 sp rest ev hrun
    subst hev
    exact hcomp c ev1 c1 ev2 c2 (hstep c sp c1 ev1 h1) (ih c1 c2 ev2 h2)

/-! ### Trace bookkeeping lemmas -/

theorem countEvent_append (e : Event) (l1 l2 : List Event) :
    countEvent e (l1 ++ l2) = countEvent e l1 + countEvent e l2 := by
  induction l1 with
  | nil => simp [countEvent]
  | cons x rest ih => simp [countEvent, ih]; omega

theorem countEvent_eq_zero (e : Event) (l : List Event) (h : e ∉ l) :
    countEvent e l = 0 := by
  induction l with
  | nil => rfl
  | cons x rest ih =>
    have hx : ¬x = e := fun hx => h (hx ▸ List.mem_cons_self x rest)
    simp only [countEvent, if_neg hx, Nat.zero_add]
    exact ih fun hm => h (List.mem_cons_of_mem x hm)

theorem stepAlt_neutral (d : String) (cur : Option Nat) (e : Event)
    (h : eventDaemon e ≠ some d) : stepAlt d cur e = some cur := by
  cases e with
  | launch d1 cid =>
    have : ¬d1 = d := fun he => h (by simp [eventDaemon, he])
    simp [stepAlt, this]
  | closeChan d1 cid =>
    have : ¬d1 = d := fun he => h (by simp [eventDaemon, he])
    simp [stepAlt, this]
  | logDebug d1 => rfl
  | logInfo d1 => rfl
  | logDebugWatchers => rfl
  | startClientWatcher => rfl
  | startBucketWatcher => rfl

theorem runAlt_neutral (d : String) (cur : Option Nat) (l : List Event)
    (h : ∀ e ∈ l, eventDaemon e ≠ some d) : runAlt d cur l = some cur := by
  induction l with
  | nil => rfl
  | cons e rest ih =>
    simp only [runAlt, stepAlt_neutral d cur e (h e (List.mem_cons_self e rest))]
    exact ih fun e' he' => h e' (List.mem_cons_of_mem e he')

theorem runAlt_append (d : String) (cur : Option Nat) (l1 l2 : List Event) :
    runAlt d cur (l1 ++ l2) =
      (runAlt d cur l1).bind fun m => runAlt d m l2 := by
  induction l1 generalizing cur with
  | nil => simp [runAlt]
  | cons e rest ih =>
    simp only [List.cons_append, runAlt]
    cases stepAlt d cur e with
    | none => rfl
    | some cur1 => exact ih cur1

theorem daemons_all_known : ∀ d ∈ daemons, d = "mon" ∨ d = "osd" ∨ d = "status" := by
  intro d hd
  simpa [daemons] using hd

/-! ### Consequences of one loop iteration -/

/-- A registry entry is present after an iteration iff it was present before
or the iteration launched a task for that kind. -/
theorem step_lookup (c c1 : Cluster) (s : ClusterSpec) (d : String)
    (ev : List Event) (hstep : Step c s d (Except.ok (c1, ev))) (d' : String) :
    ((lookupHealth c1.monitoringChannels d').isSome ↔
      ((lookupHealth c.monitoringChannels d').isSome ∨
        ∃ cid, Event.launch d' cid ∈ ev)) := by
  by_cases hdd : d' = d
  · subst hdd
    cases hstep with
    | absentDisabled hL hdis => simp [hL]
    | absentEnabled hL hdis => simp [hL, lookup_setHealth_self]
    | runningEnabled h hL hr hdis => simp [hL]
    | runningDisabledOpen h hL hr hdis hcl => simp [hL, lookup_setHealth_self]
    | stoppedEnabled h hL hr hdis => simp [hL, lookup_setHealth_self]
    | stoppedDisabled h hL hr hdis => simp [hL]
  · have hn : ∀ cid, Event.launch d' cid ∈ ev → False := by
      intro cid hm
      have he := (step_ok_facts c c1 s d ev hstep).2.2 _ hm
      simp only [eventDaemon, Option.some.injEq] at he
      exact hdd he
    rw [(step_ok_facts c c1 s d ev hstep).2.1 d' hdd]
    constructor
    · exact Or.inl
    · rintro (hh | ⟨cid, hm⟩)
      · exact hh
      · exact (hn cid hm).elim

/-- A present registry entry survives every iteration with its channel
identity intact. -/
theorem step_preserves_record (c c1 : Cluster) (s : ClusterSpec) (d : String)
    (ev : List Event) (hstep : Step c s d (Except.ok (c1, ev))) (d' : String)
    (hh : ClusterHealth)
    (hL' : lookupHealth c.monitoringChannels d' = some hh) :
    ∃ hh', lookupHealth c1.monitoringChannels d' = some hh' ∧
      hh'.stopChanId = hh.stopChanId := by
  by_cases hdd : d' = d
  · subst hdd
    cases hstep with
    | absentDisabled hL hdis => exact ⟨hh, hL', rfl⟩
    | absentEnabled hL hdis => rw [hL] at hL'; cases hL'
    | runningEnabled h hL hr hdis => exact ⟨hh, hL', rfl⟩
    | runningDisabledOpen h hL hr hdis hcl =>
      rw [hL] at hL'
      injection hL' with he
      subst he
      exact ⟨{ h with stopChanClosed := true, monitoringRunning := false },
        by simp [lookup_setHealth_self], rfl⟩
    | stoppedEnabled h hL hr hdis =>
      rw [hL] at hL'
      injection hL' with he
      subst he
      exact ⟨{ h with monitoringRunning := true },
        by simp [lookup_setHealth_self], rfl⟩
    | stoppedDisabled h hL hr hdis => exact ⟨hh, hL', rfl⟩
  · rw [(step_ok_facts c c1 s d ev hstep).2.1 d' hdd]
    exact ⟨hh, hL', rfl⟩

/-- One iteration advances the launch/close alternation automaton of every
daemon from the registry's pre-state to its post-state. -/
theorem step_alt (c c1 : Cluster) (s : ClusterSpec) (d : String)
    (ev : List Event) (hstep : Step c s d (Except.ok (c1, ev))) (d' : String) :
    runAlt d' (activeSignal c d') ev = some (activeSignal c1 d') := by
  by_cases hdd : d' = d
  · subst hdd
    cases hstep with
    | absentDisabled hL hdis => simp [runAlt, activeSignal, hL]
    | absentEnabled hL hdis =>
      simp [runAlt, stepAlt, activeSignal, hL, lookup_setHealth_self]
    | runningEnabled h hL hr hdis =>
      simp [runAlt, stepAlt, activeSignal, hL, hr]
    | runningDisabledOpen h hL hr hdis hcl =>
      simp [runAlt, stepAlt, activeSignal, hL, hr, lookup_setHealth_self]
    | stoppedEnabled h hL hr hdis =>
      simp [runAlt, stepAlt, activeSignal, hL, hr, lookup_setHealth_self]
    | stoppedDisabled h hL hr hdis => simp [runAlt, activeSignal, hL, hr]
  · have hfacts := step_ok_facts c c1 s d ev hstep
    have hsig : activeSignal c1 d' = activeSignal c d' := by
      unfold activeSignal
      rw [hfacts.2.1 d' hdd]
    rw [hsig]
    refine runAlt_neutral d' _ ev fun e he => ?_
    rw [hfacts.2.2 e he]
    exact fun hc => hdd (Option.some.inj hc).symm

/-- After an iteration for daemon `d`, the registry entry for `d` agrees with
the desired-state flag. -/
theorem step_settles (c c1 : Cluster) (s : ClusterSpec) (d : String)
    (ev : List Event) (hstep : Step c s d (Except.ok (c1, ev))) :
    settledAt (lookupHealth c1.monitoringChannels d)
      (isMonitoringDisabled d s) := by
  cases hstep with
  | absentDisabled hL hdis => simp [settledAt, hL, hdis]
  | absentEnabled hL hdis => simp [settledAt, lookup_setHealth_self, hdis]
  | runningEnabled h hL hr hdis => simp [settledAt, hL, hr, hdis]
  | runningDisabledOpen h hL hr hdis hcl =>
    simp [settledAt, lookup_setHealth_self, hdis]
  | stoppedEnabled h hL hr hdis =>
    simp [settledAt, lookup_setHealth_self, hdis]
  | stoppedDisabled h hL hr hdis => simp [settledAt, hL, hr, hdis]

/-- On a registry entry that already agrees with the desired state, an
iteration is a pure no-op up to log output. -/
theorem settled_noop (c : Cluster) (s : ClusterSpec) (d : String)
    (hd : d = "mon" ∨ d = "osd" ∨ d = "status")
    (hs : settledAt (lookupHealth c.monitoringChannels d)
      (isMonitoringDisabled d s)) :
    ∃ ev, reconcileDaemon c s d = Except.ok (c, ev) ∧
      List.filter isSideEffect ev = [] := by
  have st := rd_step c s d hd
  generalize hres : reconcileDaemon c s d = res at st
  cases st with
  | absentDisabled hL hdis => exact ⟨[], rfl, rfl⟩
  | absentEnabled hL hdis =>
    obtain ⟨hh, heq, _⟩ := hs.2 hdis
    rw [hL] at heq
    cases heq
  | runningEnabled h hL hr hdis => exact ⟨[Event.logDebug d], rfl, rfl⟩
  | runningDisabledOpen h hL hr hdis hcl =>
    have := hs.1 hdis h hL
    rw [hr] at this
    cases this
  | runningDisabledClosed h hL hr hdis hcl =>
    have := hs.1 hdis h hL
    rw [hr] at this
    cases this
  | stoppedEnabled h hL hr hdis =>
    obtain ⟨hh, heq, hrun⟩ := hs.2 hdis
    rw [hL] at heq
    injection heq with he
    rw [he, hrun] at hr
    cases hr
  | stoppedDisabled h hL hr hdis => exact ⟨[], rfl, rfl⟩

/-! ### Loop- and pass-level lemmas -/

/-- Destructuring a successful daemon loop into its three iterations. -/
theorem loop3_ok (s : ClusterSpec) (c c1 : Cluster) (ev : List Event)
    (hrun : reconcileDaemons s c daemons = Except.ok (c1, ev)) :
    ∃ ca cb evm evo evs, reconcileDaemon c s "mon" = Except.ok (ca, evm) ∧
      reconcileDaemon ca s "osd" = Except.ok (cb, evo) ∧
      reconcileDaemon cb s "status" = Except.ok (c1, evs) ∧
      ev = evm ++ (evo ++ evs) := by
  obtain ⟨ca, evm, ev', h1, hrun2, hev⟩ :=
    reconcileDaemons_cons_ok s c c1 "mon" ["osd", "status"] ev hrun
  obtain ⟨cb, evo, ev'', h2, hrun3, hev'⟩ :=
    reconcileDaemons_cons_ok s ca c1 "osd" ["status"] ev' hrun2
  obtain ⟨cc, evs, ev3, h3, hrun4, hev''⟩ :=
    reconcileDaemons_cons_ok s cb c1 "status" [] ev'' hrun3
  simp only [reconcileDaemons, Except.ok.injEq, Prod.mk.injEq] at hrun4
  obtain ⟨hcc, hev3⟩ := hrun4
  subst hcc
  subst hev3
  exact ⟨ca, cb, evm, evo, evs, h1, h2, h3, by simp [hev, hev', hev'']⟩

/-- Rebuilding a daemon loop from its three iterations. -/
theorem loop3_build (s : ClusterSpec) (c ca cb cc : Cluster)
    (e1 e2 e3 : List Event)
    (h1 : reconcileDaemon c s "mon" = Except.ok (ca, e1))
    (h2 : reconcileDaemon ca s "osd" = Except.ok (cb, e2))
    (h3 : reconcileDaemon cb s "status" = Except.ok (cc, e3)) :
    reconcileDaemons s c daemons = Except.ok (cc, e1 ++ (e2 ++ e3)) := by
  show reconcileDaemons s c ["mon", "osd", "status"] = _
  simp only [reconcileDaemons, h1, h2, h3, List.append_nil]

/-- Rebuilding a pass from its daemon loop. -/
theorem configure_build (c c1 : Cluster) (s : ClusterSpec) (ev1 : List Event)
    (h1 : reconcileDaemons s c daemons = Except.ok (c1, ev1)) :
    configureCephMonitoring c s =
      Except.ok ((startWatchers c1).1, ev1 ++ (startWatchers c1).2) := by
  simp only [configureCephMonitoring, h1]

/-- The daemon loop never touches the watcher gate and never emits
watcher-start events. -/
theorem loop_gate_and_events (s : ClusterSpec) (c c2 : Cluster)
    (ev : List Event)
    (hrun : reconcileDaemons s c daemons = Except.ok (c2, ev)) :
    c2.watchersActivated = c.watchersActivated ∧
    countEvent Event.startClientWatcher ev = 0 ∧
    countEvent Event.startBucketWatcher ev = 0 := by
  refine reconcileDaemons_ind s
    (fun c ev c2 => c2.watchersActivated = c.watchersActivated ∧
      countEvent Event.startClientWatcher ev = 0 ∧
      countEvent Event.startBucketWatcher ev = 0)
    (fun c => ⟨rfl, rfl, rfl⟩) ?_ ?_ daemons daemons_all_known c c2 ev hrun
  · intro c ev1 c1 ev2 c2 h1 h2
    refine ⟨h2.1.trans h1.1, ?_, ?_⟩
    · rw [countEvent_append, h1.2.1, h2.2.1]
    · rw [countEvent_append, h1.2.2, h2.2.2]
  · intro c d c1 ev hd hok
    have st := rd_step c s d hd
    rw [hok] at st
    obtain ⟨hw, _, hev⟩ := step_ok_facts c c1 s d ev st
    refine ⟨hw, countEvent_eq_zero _ _ ?_, countEvent_eq_zero _ _ ?_⟩
    · intro hm
      have he := hev _ hm
      simp [eventDaemon] at he
    · intro hm
      have he := hev _ hm
      simp [eventDaemon] at he

/-- A pass starting with the gate already set keeps it set and starts no
watcher. -/
theorem pass_gate_true (c : Cluster) (s : ClusterSpec) (c2 : Cluster)
    (ev : List Event) (hw : c.watchersActivated = true)
    (h : configureCephMonitoring c s = Except.ok (c2, ev)) :
    c2.watchersActivated = true ∧
    countEvent Event.startClientWatcher ev = 0 ∧
    countEvent Event.startBucketWatcher ev = 0 := by
  obtain ⟨c1, ev1, h1, hc2, hev⟩ := configure_ok c s c2 ev h
  obtain ⟨hg, hcc, hcb⟩ := loop_gate_and_events s c c1 ev1 h1
  have hw1 : c1.watchersActivated = true := hg.trans hw
  rw [startWatchers_of_true c1 hw1] at hc2 hev
  subst hc2
  subst hev
  refine ⟨hw1, ?_, ?_⟩
  · rw [countEvent_append, hcc]
    rfl
  · rw [countEvent_append, hcb]
    rfl

/-- A pass starting with the gate unset sets it and starts each watcher
exactly once. -/
theorem pass_gate_false (c : Cluster) (s : ClusterSpec) (c2 : Cluster)
    (ev : List Event) (hw : c.watchersActivated = false)
    (h : configureCephMonitoring c s = Except.ok (c2, ev)) :
    c2.watchersActivated = true ∧
    countEvent Event.startClientWatcher ev = 1 ∧
    countEvent Event.startBucketWatcher ev = 1 := by
  obtain ⟨c1, ev1, h1, hc2, hev⟩ := configure_ok c s c2 ev h
  obtain ⟨hg, hcc, hcb⟩ := loop_gate_and_events s c c1 ev1 h1
  have hw1 : c1.watchersActivated = false := hg.trans hw
  rw [startWatchers_of_false c1 hw1] at hc2 hev
  subst hc2
  subst hev
  refine ⟨rfl, ?_, ?_⟩
  · rw [countEvent_append, hcc]
    rfl
  · rw [countEvent_append, hcb]
    rfl

/-- Once the gate is set, any successful sequence of passes keeps it set and
starts no watcher. -/
theorem passes_gate_true (specs : List ClusterSpec) (c c2 : Cluster)
    (ev : List Event) (hrun : runPasses c specs = Except.ok (c2, ev))
    (hw : c.watchersActivated = true) :
    c2.watchersActivated = true ∧
    countEvent Event.startClientWatcher ev = 0 ∧
    countEvent Event.startBucketWatcher ev = 0 := by
  refine runPasses_ind
    (fun c ev c2 => c.watchersActivated = true →
      (c2.watchersActivated = true ∧
       countEvent Event.startClientWatcher ev = 0 ∧
       countEvent Event.startBucketWatcher ev = 0))
    (fun c hw => ⟨hw, rfl, rfl⟩) ?_ ?_ specs c c2 ev hrun hw
  · intro c ev1 c1 ev2 c2 h1 h2 hw0
    obtain ⟨hg1, hc1, hb1⟩ := h1 hw0
    obtain ⟨hg2, hc2, hb2⟩ := h2 hg1
    refine ⟨hg2, ?_, ?_⟩
    · rw [countEvent_append, hc1, hc2]
    · rw [countEvent_append, hb1, hb2]
  · intro c s c1 ev hok hw0
    exact pass_gate_true c s c1 ev hw0 hok

/-- Registry presence after a successful daemon loop: an entry is present iff
it was present before or the loop launched a task for that kind. -/
theorem loop_lookup (s : ClusterSpec) (c c2 : Cluster) (ev : List Event)
    (hrun : reconcileDaemons s c daemons = Except.ok (c2, ev)) (d : String) :
    ((lookupHealth c2.monitoringChannels d).isSome ↔
      ((lookupHealth c.monitoringChannels d).isSome ∨
        ∃ cid, Event.launch d cid ∈ ev)) := by
  refine reconcileDaemons_ind s
    (fun c ev c2 => ∀ d, ((lookupHealth c2.monitoringChannels d).isSome ↔
      ((lookupHealth c.monitoringChannels d).isSome ∨
        ∃ cid, Event.launch d cid ∈ ev)))
    (fun c d => by simp) ?_ ?_ daemons daemons_all_known c c2 ev hrun d
  · intro c ev1 c1 ev2 c2 h1 h2 d
    rw [h2 d, h1 d]
    constructor
    · rintro ((hc | ⟨cid, hm⟩) | ⟨cid, hm⟩)
      · exact Or.inl hc
      · exact Or.inr ⟨cid, List.mem_append.mpr (Or.inl hm)⟩
      · exact Or.inr ⟨cid, List.mem_append.mpr (Or.inr hm)⟩
    · rintro (hc | ⟨cid, hm⟩)
      · exact Or.inl (Or.inl hc)
      · rcases List.mem_append.mp hm with hm1 | hm2
        · exact Or.inl (Or.inr ⟨cid, hm1⟩)
        · exact Or.inr ⟨cid, hm2⟩
  · intro c d0 c1 ev hd0 hok
    have st := rd_step c s d0 hd0
    rw [hok] at st
    exact fun d => step_lookup c c1 s d0 ev st d

/-- Registry presence across a whole pass. -/
theorem pass_lookup (c : Cluster) (s : ClusterSpec) (c2 : Cluster)
    (ev : List Event)
    (h : configureCephMonitoring c s = Except.ok (c2, ev)) (d : String) :
    ((lookupHealth c2.monitoringChannels d).isSome ↔
      ((lookupHealth c.monitoringChannels d).isSome ∨
        ∃ cid, Event.launch d cid ∈ ev)) := by
  obtain ⟨c1, ev1, h1, hc2, hev⟩ := configure_ok c s c2 ev h
  subst hc2
  subst hev
  have hW := startWatchers_facts c1
  rw [hW.1, loop_lookup s c c1 ev1 h1 d]
  constructor
  · rintro (hc | ⟨cid, hm⟩)
    · exact Or.inl hc
    · exact Or.inr ⟨cid, List.mem_append.mpr (Or.inl hm)⟩
  · rintro (hc | ⟨cid, hm⟩)
    · exact Or.inl hc
    · rcases List.mem_append.mp hm with hm1 | hm2
      · exact Or.inr ⟨cid, hm1⟩
      · have he := hW.2.2.2 _ hm2
        simp [eventDaemon] at he

/-- A present registry entry survives a whole pass with its channel identity
intact. -/
theorem pass_preserves_record (c : Cluster) (s : ClusterSpec) (c2 : Cluster)
    (ev : List Event) (d : String) (hh : ClusterHealth)
    (h : configureCephMonitoring c s = Except.ok (c2, ev))
    (hL : lookupHealth c.monitoringChannels d = some hh) :
    ∃ hh', lookupHealth c2.monitoringChannels d = some hh' ∧
      hh'.stopChanId = hh.stopChanId := by
  obtain ⟨c1, ev1, h1, hc2, hev⟩ := configure_ok c s c2 ev h
  obtain ⟨ca, cb, evm, evo, evs, hm, ho, hs, _⟩ := loop3_ok s c c1 ev1 h1
  have stm := rd_step c s "mon" (Or.inl rfl)
  rw [hm] at stm
  have sto := rd_step ca s "osd" (Or.inr (Or.inl rfl))
  rw [ho] at sto
  have sts := rd_step cb s "status" (Or.inr (Or.inr rfl))
  rw [hs] at sts
  obtain ⟨h1', hL1, hid1⟩ := step_preserves_record c ca s "mon" evm stm d hh hL
  obtain ⟨h2', hL2, hid2⟩ := step_preserves_record ca cb s "osd" evo sto d h1' hL1
  obtain ⟨h3', hL3, hid3⟩ := step_preserves_record cb c1 s "status" evs sts d h2' hL2
  subst hc2
  rw [(startWatchers_facts c1).1]
  exact ⟨h3', hL3, by rw [hid3, hid2, hid1]⟩

/-- One pass advances every daemon's launch/close alternation automaton from
the registry's pre-state to its post-state. -/
theorem pass_alt (c : Cluster) (s : ClusterSpec) (c2 : Cluster)
    (ev : List Event)
    (h : configureCephMonitoring c s = Except.ok (c2, ev)) (d : String) :
    runAlt d (activeSignal c d) ev = some (activeSignal c2 d) := by
  obtain ⟨c1, ev1, h1, hc2, hev⟩ := configure_ok c s c2 ev h
  subst hc2
  subst hev
  have hloop : runAlt d (activeSignal c d) ev1 = some (activeSignal c1 d) := by
    refine reconcileDaemons_ind s
      (fun c ev c1 => ∀ d, runAlt d (activeSignal c d) ev =
        some (activeSignal c1 d))
      (fun c d => rfl) ?_ ?_ daemons daemons_all_known c c1 ev1 h1 d
    · intro c e1 ca e2 cb hA hB d
      rw [runAlt_append, hA d]
      dsimp only [Option.bind]
      exact hB d
    · intro c d0 c1 ev hd0 hok d
      have st := rd_step c s d0 hd0
      rw [hok] at st
      exact step_alt c c1 s d0 ev st d
  rw [runAlt_append, hloop]
  have hW := startWatchers_facts c1
  have hsig : activeSignal (startWatchers c1).1 d = activeSignal c1 d := by
    unfold activeSignal
    rw [hW.1]
  rw [hsig]
  dsimp only [Option.bind]
  refine runAlt_neutral d _ _ fun e he => ?_
  rw [hW.2.2.2 e he]
  simp

/-! ### The claims -/

/-- C1 (falsified by the code): the supervisor is claimed never to crash its
host process on any sequence of passes, including enable, disable, enable,
disable.  In fact that very sequence for the mon kind makes the fourth pass
call close() on the mon record's already-closed stop channel — a Go panic
(`close of closed channel`) that crashes the process. -/
theorem c1_crash_on_toggle :
    runPasses initialCluster
      [{ monitorDisabled := false, objectStorageDaemonDisabled := true,
         statusDisabled := true },
       { monitorDisabled := true, objectStorageDaemonDisabled := true,
         statusDisabled := true },
       { monitorDisabled := false, objectStorageDaemonDisabled := true,
         statusDisabled := true },
       { monitorDisabled := true, objectStorageDaemonDisabled := true,
         statusDisabled := true }] =
      Except.error (GoPanic.closeOfClosedChannel "mon") := by rfl

/-- C2 (falsified by the code): on disable-then-re-enable, the claim says the
relaunched task gets a fresh cancellation signal and the fired one is never
reused.  In fact the third pass below relaunches the mon task handing it the
record's original channel (identity 0), which the second pass already closed;
no new channel is allocated (`nextChanId` is still 1) and the final record
still holds channel 0 with its closed flag set while `monitoringRunning` is
true. -/
theorem c2_stale_signal_reuse :
    runPasses initialCluster
      [{ monitorDisabled := false, objectStorageDaemonDisabled := true,
         statusDisabled := true },
       { monitorDisabled := true, objectStorageDaemonDisabled := true,
         statusDisabled := true },
       { monitorDisabled := false, objectStorageDaemonDisabled := true,
         statusDisabled := true }] =
      Except.ok
        ({ monitoringChannels :=
             [("mon", { stopChanId := 0, stopChanClosed := true,
                        monitoringRunning := true })],
           watchersActivated := true, nextChanId := 1 },
         [Event.logInfo "mon", Event.launch "mon" 0,
          Event.startClientWatcher, Event.startBucketWatcher,
          Event.closeChan "mon" 0, Event.logDebugWatchers,
          Event.logInfo "mon", Event.launch "mon" 0,
          Event.logDebugWatchers]) := by rfl

/-- C3 (falsified at one cell by the code): the claimed transition table says
a Running record under a disabled snapshot transitions to Stopped (signal
cancellation, clear the running flag).  From the reachable state below (osd
enabled, disabled, enabled from a fresh cluster), the osd record is Running
but its channel is already closed, and the next disabled pass panics instead
of performing that transition. -/
theorem c3_transition_table_violated :
    runPasses initialCluster
      [{ monitorDisabled := true, objectStorageDaemonDisabled := false,
         statusDisabled := true },
       { monitorDisabled := true, objectStorageDaemonDisabled := true,
         statusDisabled := true },
       { monitorDisabled := true, objectStorageDaemonDisabled := false,
         statusDisabled := true }] =
      Except.ok
        ({ monitoringChannels :=
             [("osd", { stopChanId := 0, stopChanClosed := true,
                        monitoringRunning := true })],
           watchersActivated := true, nextChanId := 1 },
         [Event.logInfo "osd", Event.launch "osd" 0,
          Event.startClientWatcher, Event.startBucketWatcher,
          Event.closeChan "osd" 0, Event.logDebugWatchers,
          Event.logInfo "osd", Event.launch "osd" 0,
          Event.logDebugWatchers]) ∧
    reconcileDaemon
      { monitoringChannels :=
          [("osd", { stopChanId := 0, stopChanClosed := true,
                     monitoringRunning := true })],
        watchersActivated := true, nextChanId := 1 }
      { monitorDisabled := true, objectStorageDaemonDisabled := true,
        statusDisabled := true } "osd" =
      Except.error (GoPanic.closeOfClosedChannel "osd") := ⟨rfl, rfl⟩

/-- C4: reconciliation is idempotent — a second pass with the same snapshot
immediately after a successful pass launches nothing, closes nothing, starts
no watcher, and leaves the supervisor state exactly as the first pass left it
(only log events are emitted). -/
theorem c4_idempotent (c : Cluster) (s : ClusterSpec) (c2 : Cluster)
    (ev : List Event)
    (h : configureCephMonitoring c s = Except.ok (c2, ev)) :
    ∃ ev2, configureCephMonitoring c2 s = Except.ok (c2, ev2) ∧
      List.filter isSideEffect ev2 = [] := by
  obtain ⟨c1, ev1, h1, hc2, hev⟩ := configure_ok c s c2 ev h
  obtain ⟨ca, cb, evm, evo, evs, hm, ho, hs, _⟩ := loop3_ok s c c1 ev1 h1
  have stm := rd_step c s "mon" (Or.inl rfl)
  rw [hm] at stm
  have sto := rd_step ca s "osd" (Or.inr (Or.inl rfl))
  rw [ho] at sto
  have sts := rd_step cb s "status" (Or.inr (Or.inr rfl))
  rw [hs] at sts
  have hsm : settledAt (lookupHealth c1.monitoringChannels "mon")
      (isMonitoringDisabled "mon" s) := by
    have e1 : lookupHealth cb.monitoringChannels "mon" =
        lookupHealth ca.monitoringChannels "mon" :=
      (step_ok_facts ca cb s "osd" evo sto).2.1 "mon" (by decide)
    have e2 : lookupHealth c1.monitoringChannels "mon" =
        lookupHealth cb.monitoringChannels "mon" :=
      (step_ok_facts cb c1 s "status" evs sts).2.1 "mon" (by decide)
    rw [e2, e1]
    exact step_settles c ca s "mon" evm stm
  have hso : settledAt (lookupHealth c1.monitoringChannels "osd")
      (isMonitoringDisabled "osd" s) := by
    have e2 : lookupHealth c1.monitoringChannels "osd" =
        lookupHealth cb.monitoringChannels "osd" :=
      (step_ok_facts cb c1 s "status" evs sts).2.1 "osd" (by decide)
    rw [e2]
    exact step_settles ca cb s "osd" evo sto
  have hss : settledAt (lookupHealth c1.monitoringChannels "status")
      (isMonitoringDisabled "status" s) :=
    step_settles cb c1 s "status" evs sts
  subst hc2
  have hch : (startWatchers c1).1.monitoringChannels = c1.monitoringChannels :=
    (startWatchers_facts c1).1
  have hg2 : (startWatchers c1).1.watchersActivated = true :=
    (startWatchers_facts c1).2.1
  obtain ⟨evm2, hm2, hfm⟩ := settled_noop (startWatchers c1).1 s "mon"
    (Or.inl rfl) (by rw [hch]; exact hsm)
  obtain ⟨evo2, ho2, hfo⟩ := settled_noop (startWatchers c1).1 s "osd"
    (Or.inr (Or.inl rfl)) (by rw [hch]; exact hso)
  obtain ⟨evs2, hs2, hfs⟩ := settled_noop (startWatchers c1).1 s "status"
    (Or.inr (Or.inr rfl)) (by rw [hch]; exact hss)
  have hloop2 := loop3_build s (startWatchers c1).1 (startWatchers c1).1
    (startWatchers c1).1 (startWatchers c1).1 evm2 evo2 evs2 hm2 ho2 hs2
  have hpass2 := configure_build (startWatchers c1).1 (startWatchers c1).1 s
    (evm2 ++ (evo2 ++ evs2)) hloop2
  rw [startWatchers_of_true (startWatchers c1).1 hg2] at hpass2
  refine ⟨_, hpass2, ?_⟩
  simp [List.filter_append, hfm, hfo, hfs, isSideEffect]

/-- Witness for C4 at a concrete first pass (mon enabled from a fresh
cluster). -/
theorem c4_idempotent_witness :
    ∃ ev2, configureCephMonitoring
        { monitoringChannels :=
            [("mon", { stopChanId := 0, stopChanClosed := false,
                       monitoringRunning := true })],
          watchersActivated := true, nextChanId := 1 }
        { monitorDisabled := false, objectStorageDaemonDisabled := true,
          statusDisabled := true } =
      Except.ok
        ({ monitoringChannels :=
             [("mon", { stopChanId := 0, stopChanClosed := false,
                        monitoringRunning := true })],
           watchersActivated := true, nextChanId := 1 }, ev2) ∧
      List.filter isSideEffect ev2 = [] :=
  c4_idempotent initialCluster
    { monitorDisabled := false, objectStorageDaemonDisabled := true,
      statusDisabled := true }
    { monitoringChannels :=
        [("mon", { stopChanId := 0, stopChanClosed := false,
                   monitoringRunning := true })],
      watchersActivated := true, nextChanId := 1 }
    [Event.logInfo "mon", Event.launch "mon" 0, Event.startClientWatcher,
     Event.startBucketWatcher] rfl

/-- C5: the activation gate starts false; any nonempty successful sequence of
passes from a gate-false state starts the client CRD watcher exactly once and
the bucket provisioner exactly once; and once the gate is true, a pass never
resets it (and starts no further watcher). -/
theorem c5_one_shot_gate :
    initialCluster.watchersActivated = false ∧
    (∀ c specs c2 ev, c.watchersActivated = false → specs ≠ [] →
      runPasses c specs = Except.ok (c2, ev) →
      countEvent Event.startClientWatcher ev = 1 ∧
      countEvent Event.startBucketWatcher ev = 1 ∧
      c2.watchersActivated = true) ∧
    (∀ c s c2 ev, c.watchersActivated = true →
      configureCephMonitoring c s = Except.ok (c2, ev) →
      c2.watchersActivated = true ∧
      countEvent Event.startClientWatcher ev = 0 ∧
      countEvent Event.startBucketWatcher ev = 0) := by
  refine ⟨rfl, ?_, ?_⟩
  · intro c specs c2 ev hw hne hrun
    cases specs with
    | nil => exact absurd rfl hne
    | cons s0 rest =>
      obtain ⟨c1, ev1, ev2, h1, h2, hev⟩ := runPasses_cons_ok c c2 s0 rest ev hrun
      subst hev
      obtain ⟨hg1, hc1, hb1⟩ := pass_gate_false c s0 c1 ev1 hw h1
      obtain ⟨hg2, hc2, hb2⟩ := passes_gate_true rest c1 c2 ev2 h2 hg1
      refine ⟨?_, ?_, hg2⟩
      · rw [countEvent_append, hc1, hc2]
      · rw [countEvent_append, hb1, hb2]
  · exact fun c s c2 ev hw h => pass_gate_true c s c2 ev hw h

/-- Witness for C5 at a concrete two-pass run (everything disabled). -/
theorem c5_one_shot_gate_witness :
    countEvent Event.startClientWatcher
      [Event.startClientWatcher, Event.startBucketWatcher,
       Event.logDebugWatchers] = 1 ∧
    countEvent Event.startBucketWatcher
      [Event.startClientWatcher, Event.startBucketWatcher,
       Event.logDebugWatchers] = 1 ∧
    Cluster.watchersActivated
      { monitoringChannels := [], watchersActivated := true,
        nextChanId := 0 } = true :=
  c5_one_shot_gate.2.1 initialCluster
    [{ monitorDisabled := true, objectStorageDaemonDisabled := true,
       statusDisabled := true },
     { monitorDisabled := true, objectStorageDaemonDisabled := true,
       statusDisabled := true }]
    { monitoringChannels := [], watchersActivated := true, nextChanId := 0 }
    [Event.startClientWatcher, Event.startBucketWatcher,
     Event.logDebugWatchers]
    rfl (by decide) rfl

/-- C6: `isMonitoringDisabled` is total over all daemon-identifier strings:
for the three known kinds it returns the corresponding Disabled flag of the
snapshot, and for every other identifier it returns false (fail-open), never
erroring. -/
theorem c6_resolver_total_fail_open (d : String) (s : ClusterSpec) :
    (d = "mon" → isMonitoringDisabled d s = s.monitorDisabled) ∧
    (d = "osd" → isMonitoringDisabled d s = s.objectStorageDaemonDisabled) ∧
    (d = "status" → isMonitoringDisabled d s = s.statusDisabled) ∧
    (d ≠ "mon" → d ≠ "osd" → d ≠ "status" →
      isMonitoringDisabled d s = false) := by
  refine ⟨?_, ?_, ?_, ?_⟩
  · intro h
    subst h
    rfl
  · intro h
    subst h
    rfl
  · intro h
    subst h
    rfl
  · intro h1 h2 h3
    simp [isMonitoringDisabled, h1, h2, h3]

/-- Witness for C6 at concrete identifiers (one known, one unknown). -/
theorem c6_resolver_total_fail_open_witness :
    isMonitoringDisabled "mon"
      { monitorDisabled := true, objectStorageDaemonDisabled := false,
        statusDisabled := false } = true ∧
    isMonitoringDisabled "rgw"
      { monitorDisabled := true, objectStorageDaemonDisabled := true,
        statusDisabled := true } = false :=
  ⟨(c6_resolver_total_fail_open "mon"
      { monitorDisabled := true, objectStorageDaemonDisabled := false,
        statusDisabled := false }).1 rfl,
   (c6_resolver_total_fail_open "rgw"
      { monitorDisabled := true, objectStorageDaemonDisabled := true,
        statusDisabled := true }).2.2.2
     (by decide) (by decide) (by decide)⟩

/-- C7: the concrete scenario — from a fresh cluster, a pass with
mon enabled, osd disabled, status enabled yields Running records for mon and
status and none for osd; the next pass with mon disabled, osd enabled,
status enabled closes mon's channel exactly once, creates and launches osd,
and leaves status untouched (no launch, no signal for it). -/
theorem c7_scenario :
    configureCephMonitoring initialCluster
      { monitorDisabled := false, objectStorageDaemonDisabled := true,
        statusDisabled := false } =
      Except.ok
        ({ monitoringChannels :=
             [("mon", { stopChanId := 0, stopChanClosed := false,
                        monitoringRunning := true }),
              ("status", { stopChanId := 1, stopChanClosed := false,
                           monitoringRunning := true })],
           watchersActivated := true, nextChanId := 2 },
         [Event.logInfo "mon", Event.launch "mon" 0,
          Event.logInfo "status", Event.launch "status" 1,
          Event.startClientWatcher, Event.startBucketWatcher]) ∧
    configureCephMonitoring
      { monitoringChannels :=
          [("mon", { stopChanId := 0, stopChanClosed := false,
                     monitoringRunning := true }),
           ("status", { stopChanId := 1, stopChanClosed := false,
                        monitoringRunning := true })],
        watchersActivated := true, nextChanId := 2 }
      { monitorDisabled := true, objectStorageDaemonDisabled := false,
        statusDisabled := false } =
      Except.ok
        ({ monitoringChannels :=
             [("mon", { stopChanId := 0, stopChanClosed := true,
                        monitoringRunning := false }),
              ("status", { stopChanId := 1, stopChanClosed := false,
                           monitoringRunning := true }),
              ("osd", { stopChanId := 2, stopChanClosed := false,
                        monitoringRunning := true })],
           watchersActivated := true, nextChanId := 3 },
         [Event.closeChan "mon" 0,
          Event.logInfo "osd", Event.launch "osd" 2,
          Event.logDebug "status", Event.logDebugWatchers]) ∧
    countEvent (Event.closeChan "mon" 0)
      [Event.closeChan "mon" 0, Event.logInfo "osd", Event.launch "osd" 2,
       Event.logDebug "status", Event.logDebugWatchers] = 1 ∧
    countEvent (Event.launch "status" 1)
      [Event.closeChan "mon" 0, Event.logInfo "osd", Event.launch "osd" 2,
       Event.logDebug "status", Event.logDebugWatchers] = 0 ∧
    countEvent (Event.closeChan "status" 1)
      [Event.closeChan "mon" 0, Event.logInfo "osd", Event.launch "osd" 2,
       Event.logDebug "status", Event.logDebugWatchers] = 0 :=
  ⟨rfl, rfl, rfl, rfl, rfl⟩

/-- C8: a monitoring record exists in the registry iff some earlier pass of
the run launched a task for that kind; and a record, once present, is never
deleted by a pass — it survives with its channel identity, only its flags
change. -/
theorem c8_registry_iff_launched :
    (∀ specs c2 ev, runPasses initialCluster specs = Except.ok (c2, ev) →
      ∀ d, (∃ hh, lookupHealth c2.monitoringChannels d = some hh) ↔
        (∃ cid, Event.launch d cid ∈ ev)) ∧
    (∀ c s c2 ev d hh, configureCephMonitoring c s = Except.ok (c2, ev) →
      lookupHealth c.monitoringChannels d = some hh →
      ∃ hh', lookupHealth c2.monitoringChannels d = some hh' ∧
        hh'.stopChanId = hh.stopChanId) := by
  constructor
  · intro specs c2 ev hrun d
    have hmain := runPasses_ind
      (fun c ev c2 => ∀ d, ((lookupHealth c2.monitoringChannels d).isSome ↔
        ((lookupHealth c.monitoringChannels d).isSome ∨
          ∃ cid, Event.launch d cid ∈ ev)))
      (fun c d => by simp) ?_ ?_ specs initialCluster c2 ev hrun d
    · rw [← Option.isSome_iff_exists, hmain]
      simp [initialCluster, lookupHealth]
    · intro c ev1 c1 ev2 c2 h1 h2 d
      rw [h2 d, h1 d]
      constructor
      · rintro ((hc | ⟨cid, hm⟩) | ⟨cid, hm⟩)
        · exact Or.inl hc
        · exact Or.inr ⟨cid, List.mem_append.mpr (Or.inl hm)⟩
        · exact Or.inr ⟨cid, List.mem_append.mpr (Or.inr hm)⟩
      · rintro (hc | ⟨cid, hm⟩)
        · exact Or.inl (Or.inl hc)
        · rcases List.mem_append.mp hm with hm1 | hm2
          · exact Or.inl (Or.inr ⟨cid, hm1⟩)
          · exact Or.inr ⟨cid, hm2⟩
    · exact fun c s c1 ev hok d => pass_lookup c s c1 ev hok d
  · exact fun c s c2 ev d hh h hL => pass_preserves_record c s c2 ev d hh h hL

/-- Witness for C8 at a concrete one-pass run (mon enabled). -/
theorem c8_registry_iff_launched_witness :
    ∃ hh, lookupHealth
      [("mon", ({ stopChanId := 0, stopChanClosed := false,
                  monitoringRunning := true } : ClusterHealth))] "mon" =
        some hh :=
  (c8_registry_iff_launched.1
    [{ monitorDisabled := false, objectStorageDaemonDisabled := true,
       statusDisabled := true }]
    { monitoringChannels :=
        [("mon", { stopChanId := 0, stopChanClosed := false,
                   monitoringRunning := true })],
      watchersActivated := true, nextChanId := 1 }
    [Event.logInfo "mon", Event.launch "mon" 0, Event.startClientWatcher,
     Event.startBucketWatcher] rfl "mon").mpr ⟨0, by decide⟩

/-- C9: at most one task per kind is ever active during a successful run, and
between two consecutive launches of the same kind exactly one cancellation is
issued, firing precisely the first task's signal: the per-kind projection of
the trace is accepted by the strict launch/close alternation automaton, whose
final state matches the registry. -/
theorem c9_at_most_one_active (specs : List ClusterSpec) (c2 : Cluster)
    (ev : List Event)
    (hrun : runPasses initialCluster specs = Except.ok (c2, ev)) (d : String) :
    runAlt d none ev = some (activeSignal c2 d) := by
  refine runPasses_ind
    (fun c ev c2 => ∀ d, runAlt d (activeSignal c d) ev =
      some (activeSignal c2 d))
    (fun c d => rfl) ?_ ?_ specs initialCluster c2 ev hrun d
  · intro c e1 ca e2 cb hA hB d
    rw [runAlt_append, hA d]
    dsimp only [Option.bind]
    exact hB d
  · exact fun c s c1 ev hok d => pass_alt c s c1 ev hok d

/-- Witness for C9 at a concrete two-pass run (mon enabled then disabled). -/
theorem c9_at_most_one_active_witness :
    runAlt "mon" none
      [Event.logInfo "mon", Event.launch "mon" 0, Event.startClientWatcher,
       Event.startBucketWatcher, Event.closeChan "mon" 0,
       Event.logDebugWatchers] = some none :=
  c9_at_most_one_active
    [{ monitorDisabled := false, objectStorageDaemonDisabled := true,
       statusDisabled := true },
     { monitorDisabled := true, objectStorageDaemonDisabled := true,
       statusDisabled := true }]
    { monitoringChannels :=
        [("mon", { stopChanId := 0, stopChanClosed := true,
                   monitoringRunning := false })],
      watchersActivated := true, nextChanId := 1 }
    [Event.logInfo "mon", Event.launch "mon" 0, Event.startClientWatcher,
     Event.startBucketWatcher, Event.closeChan "mon" 0,
     Event.logDebugWatchers] rfl "mon"

/-- C10: for every daemon identifier outside the known enumeration
mon, osd, status, and every supervisor state, `startMonitoringCheck` is a
silent no-op: it launches nothing, logs nothing, raises no panic, and leaves
the whole supervisor state unchanged. -/
theorem c10_unknown_daemon_noop (c : Cluster) (d : String)
    (h1 : d ≠ "mon") (h2 : d ≠ "osd") (h3 : d ≠ "status") :
    startMonitoringCheck c d = Except.ok (c, []) := by
  simp [startMonitoringCheck, h1, h2, h3]

/-- Witness for C10 at a concrete unknown identifier. -/
theorem c10_unknown_daemon_noop_witness :
    startMonitoringCheck initialCluster "mgr" =
      Except.ok (initialCluster, []) :=
  c10_unknown_daemon_noop initialCluster "mgr" (by decide) (by decide)
    (by decide)

end Rook
